import Mathlib

/-!
Shallow embedding of `crossword_cli.py` (class `ThemeHelper`): a CLI helper
that validates crossword theme entries against NYT guidelines and, through a
word-association lookup, suggests synonyms and same-length theme entries.

Python strings are modelled as `List Char`; `str.replace(" ", "")`,
`str.upper()`, `str.lower()`, `str.strip()` and `str.split()` are modelled
character-wise (exact for the ASCII data the tool works with).  The network
boundary (`urllib.request.urlopen` + JSON decoding) is modelled by an injected
lookup function `Query → Except PyError (List Item)`: an `Item` is the optional
`word` field of one JSON object, and `PyError` distinguishes the two `except`
clauses of the source (`urllib.error.URLError` vs any other `Exception`).
Decorative emoji prefixes of some messages are omitted; the informative text
and all interpolated data are kept.
-/

/-- Model of Python `s.replace(" ", "")`: drop every space character. -/
def stripSpaces (l : List Char) : List Char := l.filter (fun c => decide (c ≠ ' '))

/-- Model of Python `s.lower()` (character-wise, exact on ASCII). -/
def lowerStr (l : List Char) : List Char := l.map Char.toLower

/-- Model of Python `s.upper()` (character-wise, exact on ASCII). -/
def upperStr (l : List Char) : List Char := l.map Char.toUpper

/-- Model of Python `s.strip()`: remove leading and trailing whitespace. -/
def pyStrip (l : List Char) : List Char :=
  ((l.dropWhile Char.isWhitespace).reverse.dropWhile Char.isWhitespace).reverse

/-- Auxiliary accumulator for `pySplitWs`. -/
def splitWsAux : List Char → List Char → List (List Char)
  | [], acc => if acc = [] then [] else [acc.reverse]
  | c :: cs, acc =>
    if c.isWhitespace then
      if acc = [] then splitWsAux cs [] else acc.reverse :: splitWsAux cs []
    else splitWsAux cs (c :: acc)

/-- Model of Python `s.split()` (no argument): split on whitespace runs,
dropping empty pieces. -/
def pySplitWs (l : List Char) : List (List Char) := splitWsAux l []

/-- Cleaned length of an entry: character count with spaces removed
(`len(entry.replace(" ", ""))` in the source). -/
def cleanedLength (entry : List Char) : Nat := (stripSpaces entry).length

/-- One JSON object of a Datamuse response, reduced to its optional `word`
field (`item.get("word")` in the source; `none` models a missing key). -/
abbrev Item := Option (List Char)

/-- Truthiness filter of the source: keep `item.get("word")` values that are
present and non-empty (`if item.get("word")` / `if word_value`). -/
def nonEmptyWords (data : List Item) : List (List Char) :=
  data.filterMap (fun it =>
    match it with
    | none => none
    | some w => if w = [] then none else some w)

/-- A request issued by the tool: `ml` is Datamuse `?ml=` (means-like) and
`relTrg` is `?rel_trg=` (triggered/related), each with its `&max=` cap. -/
inductive Query where
  | ml (phrase : List Char) (max : Nat)
  | relTrg (phrase : List Char) (max : Nat)
deriving DecidableEq

/-- The two exception classes distinguished by the source's `except` clauses:
`urllib.error.URLError` and any other `Exception`, each carrying `str(e)`. -/
inductive PyError where
  | urlError (msg : String)
  | exc (msg : String)
deriving DecidableEq

namespace ThemeHelper

/-- NYT guideline constant `MIN_THEME_ENTRIES` of the source. -/
def MIN_THEME_ENTRIES : Nat := 4

/-- NYT guideline constant `MAX_THEME_ENTRIES` of the source. -/
def MAX_THEME_ENTRIES : Nat := 5

/-- NYT guideline constant `MIN_ENTRY_LENGTH` of the source. -/
def MIN_ENTRY_LENGTH : Nat := 8

/-- NYT guideline constant `MAX_ENTRY_LENGTH` of the source. -/
def MAX_ENTRY_LENGTH : Nat := 15

/-- Message of `validate_entry_length` for a too-short entry. -/
def tooShortMessage (length : Nat) : String :=
  "Entry too short (" ++ toString length ++ " letters). NYT theme entries are typically "
    ++ toString MIN_ENTRY_LENGTH ++ "-" ++ toString MAX_ENTRY_LENGTH ++ " letters."

/-- Message of `validate_entry_length` for a too-long entry. -/
def tooLongMessage (length : Nat) : String :=
  "Entry too long (" ++ toString length ++ " letters). NYT theme entries are typically "
    ++ toString MIN_ENTRY_LENGTH ++ "-" ++ toString MAX_ENTRY_LENGTH ++ " letters."

/-- Message of `validate_entry_length` for an in-range entry. -/
def goodLengthMessage (length : Nat) : String :=
  "Good length (" ++ toString length ++ " letters)"

/-- Embedding of `ThemeHelper.validate_entry_length`. -/
def validate_entry_length (entry : List Char) : Bool × String :=
  let length := (stripSpaces entry).length
  if length < MIN_ENTRY_LENGTH then (false, tooShortMessage length)
  else if length > MAX_ENTRY_LENGTH then (false, tooLongMessage length)
  else (true, goodLengthMessage length)

end ThemeHelper

/-- Per-entry record appended to `results["entries"]` by `analyze_theme`. -/
structure EntryResult where
  text : List Char
  length : Nat
  valid : Bool
  message : String
deriving DecidableEq

/-- The `results` dictionary returned by `analyze_theme`. -/
structure AnalysisReport where
  entries : List EntryResult
  total_length : Nat
  entry_count : Nat
  warnings : List String
  suggestions : List String
deriving DecidableEq

namespace ThemeHelper

/-- One iteration of the per-entry loop of `analyze_theme`: clean the entry
(spaces removed, upper-cased), record its length and the validator verdict. -/
def entryResultOf (entry : List Char) : EntryResult :=
  let clean_entry := upperStr (stripSpaces entry)
  { text := entry
    length := clean_entry.length
    valid := (validate_entry_length entry).1
    message := (validate_entry_length entry).2 }

/-- Warning of `analyze_theme` for too few theme entries. -/
def needMoreMessage : String :=
  "Consider adding more theme entries. NYT puzzles typically have "
    ++ toString MIN_THEME_ENTRIES ++ "-" ++ toString MAX_THEME_ENTRIES ++ " theme entries."

/-- Warning of `analyze_theme` for too many theme entries. -/
def tooManyMessage (n : Nat) : String :=
  "You have many theme entries (" ++ toString n ++ "). NYT puzzles typically have "
    ++ toString MIN_THEME_ENTRIES ++ "-" ++ toString MAX_THEME_ENTRIES ++ " theme entries."

/-- Suggestion of `analyze_theme` when all entries have one length. -/
def uniformMessage : String :=
  "All theme entries have the same length - excellent for symmetry!"

/-- Warning of `analyze_theme` listing the (sorted) unpaired lengths. -/
def unpairedMessage (ls : List Nat) : String :=
  "Theme entries must be in pairs of equal lengths for symmetry. Unpaired lengths: "
    ++ toString ls

/-- Suggestion of `analyze_theme` when every length occurs an even number of
times. -/
def pairedMessage : String :=
  "All theme entries are paired by length - good for symmetric placement!"

/-- Entry-count check of `analyze_theme` (runs before the symmetry check). -/
def countWarnings (n : Nat) : List String :=
  if n < MIN_THEME_ENTRIES then [needMoreMessage]
  else if n > MAX_THEME_ENTRIES then [tooManyMessage n]
  else []

/-- Keys of `Counter(lengths)` whose multiplicity is odd.  The source iterates
the counter in insertion order; since the only use sorts the list, the key
order is immaterial and `List.dedup` serves as the distinct-key set. -/
def oddLengths (ls : List Nat) : List Nat :=
  ls.dedup.filter (fun n => decide (ls.count n % 2 ≠ 0))

/-- The `sorted(unpaired_lengths)` value interpolated into the warning. -/
def unpairedLengths (ls : List Nat) : List Nat :=
  List.insertionSort (· ≤ ·) (oddLengths ls)

/-- Symmetry check of `analyze_theme`: returns the warnings and suggestions it
contributes, as a pair `(warnings, suggestions)`.  `ls.dedup.length` models
`len(set(lengths))`. -/
def pairingItems (ls : List Nat) : List String × List String :=
  if ls.dedup.length = 1 then ([], [uniformMessage])
  else if oddLengths ls = [] then ([], [pairedMessage])
  else ([unpairedMessage (unpairedLengths ls)], [])

/-- The `lengths = [e["length"] for e in results["entries"]]` list. -/
def themeLengths (entries : List (List Char)) : List Nat :=
  (entries.map entryResultOf).map (fun e => e.length)

/-- Embedding of `ThemeHelper.analyze_theme`: per-entry results in input
order, accumulated total length, entry count, then the entry-count check
followed by the paired-length symmetry check. -/
def analyze_theme (entries : List (List Char)) : AnalysisReport :=
  { entries := entries.map entryResultOf
    total_length := (themeLengths entries).sum
    entry_count := entries.length
    warnings := countWarnings entries.length ++ (pairingItems (themeLengths entries)).1
    suggestions := (pairingItems (themeLengths entries)).2 }

end ThemeHelper

/-- The `results` dictionary returned by `suggest_wordplay`. -/
structure SuggestionResult where
  synonyms : List (List Char)
  related : List (List Char)
  error : Option String
deriving DecidableEq

namespace ThemeHelper

/-- The `clean_phrase = base_phrase.strip().lower()` normalisation shared by
`suggest_wordplay` and `generate_theme_entries`. -/
def cleanPhraseOf (phrase : List Char) : List Char := lowerStr (pyStrip phrase)

/-- Error string attached by the two `except` clauses of `suggest_wordplay`. -/
def errorMessage : PyError → String
  | .urlError m => "Network error: Unable to fetch synonyms. " ++ m
  | .exc m => "Error fetching synonyms: " ++ m

/-- Embedding of `ThemeHelper.suggest_wordplay` with the network boundary
injected as `lookup`.  The source mutates `results["synonyms"]` after the
first successful lookup and only then issues the second lookup, so a failure
of the second lookup leaves the already-assigned synonyms in place; the
embedding reproduces that.  Every branch returns a `SuggestionResult`: the
operation is total, nothing escapes the boundary. -/
def suggest_wordplay (lookup : Query → Except PyError (List Item))
    (base_phrase : List Char) : SuggestionResult :=
  let clean_phrase := cleanPhraseOf base_phrase
  match lookup (Query.ml clean_phrase 15) with
  | .error e => { synonyms := [], related := [], error := some (errorMessage e) }
  | .ok synonym_data =>
    let syns := nonEmptyWords (synonym_data.take 10)
    match lookup (Query.relTrg clean_phrase 15) with
    | .error e => { synonyms := syns, related := [], error := some (errorMessage e) }
    | .ok related_data =>
      { synonyms := syns
        related := nonEmptyWords (related_data.take 10)
        error := none }

end ThemeHelper

/-- The `results` dictionary returned by `generate_theme_entries`. -/
structure GenerateResult where
  base_entry : List Char
  target_length : Nat
  generated_entries : List (List Char)
  error : Option String
deriving DecidableEq

namespace ThemeHelper

/-- Error string attached by the two `except` clauses of
`generate_theme_entries`. -/
def genErrorMessage : PyError → String
  | .urlError m => "Network error: Unable to generate theme entries. " ++ m
  | .exc m => "Error generating theme entries: " ++ m

/-- The per-word loop of `generate_theme_entries`: for each word, fetch the
means-like list then the triggered list, keeping non-empty `word` fields in
discovery order; the first failing lookup aborts the whole collection. -/
def collectWordCandidates (lookup : Query → Except PyError (List Item)) :
    List (List Char) → Except PyError (List (List Char))
  | [] => .ok []
  | w :: ws =>
    match lookup (Query.ml w 30) with
    | .error e => .error e
    | .ok syn =>
      match lookup (Query.relTrg w 30) with
      | .error e => .error e
      | .ok rel =>
        match collectWordCandidates lookup ws with
        | .error e => .error e
        | .ok rest => .ok (nonEmptyWords syn ++ (nonEmptyWords rel ++ rest))

/-- The whole `all_candidates` collection of `generate_theme_entries`:
per-word candidates followed by the full-phrase means-like list. -/
def genCollect (lookup : Query → Except PyError (List Item))
    (clean_phrase : List Char) : Except PyError (List (List Char)) :=
  match collectWordCandidates lookup (pySplitWs clean_phrase) with
  | .error e => .error e
  | .ok wordCands =>
    match lookup (Query.ml clean_phrase 50) with
    | .error e => .error e
    | .ok topic => .ok (wordCands ++ nonEmptyWords topic)

/-- The `seen` set dedup loop of `generate_theme_entries`: drop a candidate
whose lower-cased form was already seen, keeping first-seen occurrences. -/
def dedupCIAux (seen : List (List Char)) : List (List Char) → List (List Char)
  | [] => []
  | c :: cs =>
    if lowerStr c ∈ seen then dedupCIAux seen cs
    else c :: dedupCIAux (lowerStr c :: seen) cs

/-- Case-insensitive order-preserving de-duplication (`seen` starts empty). -/
def dedupCI (l : List (List Char)) : List (List Char) := dedupCIAux [] l

/-- The `matching_entries` loop of `generate_theme_entries`: keep candidates
whose upper-cased space-stripped length equals the target, skip repeated
display forms, and break as soon as the list reaches `max_results`. -/
def matchLoopAux (target maxr : Nat) (acc : List (List Char)) :
    List (List Char) → List (List Char)
  | [] => acc
  | c :: cs =>
    if (stripSpaces (upperStr c)).length = target then
      let acc2 := if upperStr c ∈ acc then acc else acc ++ [upperStr c]
      if maxr ≤ acc2.length then acc2 else matchLoopAux target maxr acc2 cs
    else matchLoopAux target maxr acc cs

/-- Embedding of `ThemeHelper.generate_theme_entries` with the network
boundary injected as `lookup`.  `base_entry` and `target_length` are computed
before the fallible block, exactly as in the source; on any lookup failure the
generated list stays empty and the error string is attached. -/
def generate_theme_entries (lookup : Query → Except PyError (List Item))
    (base_entry : List Char) (max_results : Nat := 10) : GenerateResult :=
  let clean_phrase := cleanPhraseOf base_entry
  let target_length := (stripSpaces clean_phrase).length
  match genCollect lookup clean_phrase with
  | .error e =>
    { base_entry := upperStr base_entry
      target_length := target_length
      generated_entries := []
      error := some (genErrorMessage e) }
  | .ok all_candidates =>
    { base_entry := upperStr base_entry
      target_length := target_length
      generated_entries := matchLoopAux target_length max_results [] (dedupCI all_candidates)
      error := none }

end ThemeHelper

/-- A lookup that never fails, returning the fixed candidate lists `f`. -/
def okLookup (f : Query → List Item) : Query → Except PyError (List Item) :=
  fun q => .ok (f q)

/-- Discovery-order candidate list produced by the per-word loop of
`generate_theme_entries` when every lookup succeeds with the lists `f`. -/
def pureWordCandidates (f : Query → List Item) : List (List Char) → List (List Char)
  | [] => []
  | w :: ws =>
    nonEmptyWords (f (Query.ml w 30))
      ++ (nonEmptyWords (f (Query.relTrg w 30)) ++ pureWordCandidates f ws)

/-- Discovery-order list of all candidates (per-word lists then the
full-phrase list) when every lookup succeeds with the lists `f`. -/
def pureAllCandidates (f : Query → List Item) (clean_phrase : List Char) : List (List Char) :=
  pureWordCandidates f (pySplitWs clean_phrase)
    ++ nonEmptyWords (f (Query.ml clean_phrase 50))

/-- Specification-side description of theme-entry generation: among the
discovered candidates, de-duplicate case-insensitively keeping the first-seen
occurrence, keep exactly those whose space-stripped length equals the target,
display them upper-cased in discovery order, capped at `maxr`. -/
def specGeneratedEntries (cands : List (List Char)) (target maxr : Nat) : List (List Char) :=
  (((ThemeHelper.dedupCI cands).filter
      (fun c => decide ((stripSpaces c).length = target))).map upperStr).take maxr

/-- Concrete injected lookup whose synonym request succeeds with one word and
whose related-words request fails. -/
def cexLookup : Query → Except PyError (List Item)
  | .ml _ _ => .ok [some ['c', 'a', 't']]
  | .relTrg _ _ => .error (.urlError ("timeout"))

/-- Concrete injected lookup that always fails with a network error. -/
def failLookup : Query → Except PyError (List Item) :=
  fun _ => .error (.urlError ("boom"))

/-- Concrete fixed candidate lists for exercising theme-entry generation:
per-word requests return words of various lengths and cases (plus a missing
and an empty `word` field), the full-phrase request returns one more word. -/
def fixedLookup : Query → List Item
  | .ml _ 50 => [some ['r', 'a', 't', 's']]
  | .ml _ _ => [some ['c', 'a', 't'], some ['C', 'a', 't'], none, some [],
      some ['h', 'o', 'u', 's', 'e']]
  | .relTrg _ _ => [some ['d', 'o', 'g']]

/-- Constant table of one guideline profile: entry-count range and
entry-length range (spec section 3, `GuidelineProfile`). -/
structure GuidelineProfile where
  min_entries : Nat
  max_entries : Nat
  min_entry_length : Nat
  max_entry_length : Nat
deriving DecidableEq

/-- The 15×15 standard profile: the constant table of `ThemeHelper`. -/
def standardProfile : GuidelineProfile :=
  { min_entries := 4, max_entries := 5, min_entry_length := 8, max_entry_length := 15 }

/-- Modelled from the spec: the 5×5 mini-puzzle guideline table of
`MiniThemeAnalyzer`, which is absent from `src/`.  The spec fixes no numeric
constants for the mini profile; the values here suit a 5×5 grid and are
distinct from the standard table in every field. -/
def miniProfile : GuidelineProfile :=
  { min_entries := 2, max_entries := 3, min_entry_length := 3, max_entry_length := 5 }

/-- Modelled from the spec: the shared algorithm shape of the two sibling
analyzers, parameterized by an explicit `GuidelineProfile` (spec sections 2
and 4.2); the message of the length validator, with the profile's range. -/
def tooShortMessageWith (p : GuidelineProfile) (length : Nat) : String :=
  "Entry too short (" ++ toString length ++ " letters). NYT theme entries are typically "
    ++ toString p.min_entry_length ++ "-" ++ toString p.max_entry_length ++ " letters."

/-- Modelled from the spec: too-long message of the profiled validator. -/
def tooLongMessageWith (p : GuidelineProfile) (length : Nat) : String :=
  "Entry too long (" ++ toString length ++ " letters). NYT theme entries are typically "
    ++ toString p.min_entry_length ++ "-" ++ toString p.max_entry_length ++ " letters."

/-- Modelled from the spec: length validator parameterized by a profile. -/
def validateEntryLengthWith (p : GuidelineProfile) (entry : List Char) : Bool × String :=
  let length := (stripSpaces entry).length
  if length < p.min_entry_length then (false, tooShortMessageWith p length)
  else if length > p.max_entry_length then (false, tooLongMessageWith p length)
  else (true, ThemeHelper.goodLengthMessage length)

/-- Modelled from the spec: per-entry result of the profiled analyzer. -/
def entryResultWith (p : GuidelineProfile) (entry : List Char) : EntryResult :=
  let clean_entry := upperStr (stripSpaces entry)
  { text := entry
    length := clean_entry.length
    valid := (validateEntryLengthWith p entry).1
    message := (validateEntryLengthWith p entry).2 }

/-- Modelled from the spec: too-few-entries warning with the profile range. -/
def needMoreMessageWith (p : GuidelineProfile) : String :=
  "Consider adding more theme entries. NYT puzzles typically have "
    ++ toString p.min_entries ++ "-" ++ toString p.max_entries ++ " theme entries."

/-- Modelled from the spec: too-many-entries warning with the profile range. -/
def tooManyMessageWith (p : GuidelineProfile) (n : Nat) : String :=
  "You have many theme entries (" ++ toString n ++ "). NYT puzzles typically have "
    ++ toString p.min_entries ++ "-" ++ toString p.max_entries ++ " theme entries."

/-- Modelled from the spec: entry-count check of the profiled analyzer. -/
def countWarningsWith (p : GuidelineProfile) (n : Nat) : List String :=
  if n < p.min_entries then [needMoreMessageWith p]
  else if n > p.max_entries then [tooManyMessageWith p n]
  else []

/-- Modelled from the spec: lengths list of the profiled analyzer. -/
def themeLengthsWith (p : GuidelineProfile) (entries : List (List Char)) : List Nat :=
  (entries.map (entryResultWith p)).map (fun e => e.length)

/-- Modelled from the spec: the shared analyzer shape — per-entry validation
in input order, totals, entry-count check, then paired-length symmetry check,
all against the given profile's constant table. -/
def analyzeThemeWith (p : GuidelineProfile) (entries : List (List Char)) : AnalysisReport :=
  { entries := entries.map (entryResultWith p)
    total_length := (themeLengthsWith p entries).sum
    entry_count := entries.length
    warnings := countWarningsWith p entries.length
      ++ (ThemeHelper.pairingItems (themeLengthsWith p entries)).1
    suggestions := (ThemeHelper.pairingItems (themeLengthsWith p entries)).2 }

namespace MiniThemeAnalyzer

/-- Modelled from the spec: `MiniThemeAnalyzer` validates entries against the
5×5 mini-puzzle guidelines, sharing the analyzer shape with the standard
analyzer and differing only in its constant table. -/
def analyze_theme (entries : List (List Char)) : AnalysisReport :=
  analyzeThemeWith miniProfile entries

end MiniThemeAnalyzer

/-- Concrete entries with cleaned lengths 8, 8, 9, 9, 10: the spec's first
pairing example (length 10 is unpaired). -/
def exUnpairedEntries : List (List Char) :=
  [List.replicate 8 'A', List.replicate 8 'B', List.replicate 9 'C',
    List.replicate 9 'D', List.replicate 10 'E']

/-- Concrete entries with cleaned lengths 8, 8, 9, 9: the spec's second
pairing example (every length paired). -/
def exPairedEntries : List (List Char) :=
  [List.replicate 8 'A', List.replicate 8 'B', List.replicate 9 'C',
    List.replicate 9 'D']

/-! Helper lemmas. -/

/-- Packing a small scalar value into a `Char` and reading it back is the
identity. -/
theorem charToNat_ofNat {m : Nat} (h : m < 55296) : (Char.ofNat m).toNat = m := by
  have hv : m.isValidChar := Or.inl h
  rw [Char.ofNat, dif_pos hv]
  simp [Char.ofNatAux, Char.toNat, UInt32.toNat]

/-- Lower-casing after upper-casing agrees with lower-casing directly. -/
theorem charToLower_toUpper (c : Char) : c.toUpper.toLower = c.toLower := by
  by_cases h : c.toNat ≥ 97 ∧ c.toNat ≤ 122
  · have h1 : c.toUpper = Char.ofNat (c.toNat - 32) := by
      rw [Char.toUpper, if_pos h]
    have h2 : (Char.ofNat (c.toNat - 32)).toNat = c.toNat - 32 :=
      charToNat_ofNat (by omega)
    have h3 : c.toNat - 32 + 32 = c.toNat := by omega
    rw [h1, Char.toLower, h2, if_pos (by omega), h3, Char.ofNat_toNat,
      Char.toLower, if_neg (by omega)]
  · rw [Char.toUpper, if_neg h]

/-- Upper-casing maps the space character to itself and nothing else to it. -/
theorem charToUpper_eq_space_iff (c : Char) : c.toUpper = ' ' ↔ c = ' ' := by
  constructor
  · intro hc
    by_cases h : c.toNat ≥ 97 ∧ c.toNat ≤ 122
    · exfalso
      have h1 : c.toUpper = Char.ofNat (c.toNat - 32) := by
        rw [Char.toUpper, if_pos h]
      have h2 : (Char.ofNat (c.toNat - 32)).toNat = c.toNat - 32 :=
        charToNat_ofNat (by omega)
      have h3 : c.toUpper.toNat = 32 := by rw [hc]; rfl
      rw [h1, h2] at h3
      omega
    · rwa [Char.toUpper, if_neg h] at hc
  · intro hc
    subst hc
    rfl

/-- Lower-casing an upper-cased string agrees with lower-casing it directly. -/
theorem lowerStr_upperStr (l : List Char) : lowerStr (upperStr l) = lowerStr l := by
  simp only [lowerStr, upperStr, List.map_map]
  exact List.map_congr_left (fun c _ => charToLower_toUpper c)

/-- Removing spaces commutes with upper-casing. -/
theorem stripSpaces_upperStr (l : List Char) :
    stripSpaces (upperStr l) = upperStr (stripSpaces l) := by
  simp only [stripSpaces, upperStr]
  rw [List.filter_map]
  congr 1
  apply List.filter_congr
  intro c _
  simp only [Function.comp_apply]
  exact decide_eq_decide.mpr (not_congr (charToUpper_eq_space_iff c))

/-- The space-stripped length is unchanged by upper-casing. -/
theorem length_stripSpaces_upperStr (l : List Char) :
    (stripSpaces (upperStr l)).length = (stripSpaces l).length := by
  rw [stripSpaces_upperStr]
  simp [upperStr]

/-- The lengths recorded in the per-entry results are the cleaned lengths. -/
theorem themeLengths_eq (entries : List (List Char)) :
    ThemeHelper.themeLengths entries = entries.map cleanedLength := by
  unfold ThemeHelper.themeLengths
  rw [List.map_map]
  refine List.map_congr_left (fun e _ => ?_)
  simp [ThemeHelper.entryResultOf, upperStr, cleanedLength]

/-- Membership in the odd-multiplicity length list. -/
theorem mem_oddLengths (ls : List Nat) (n : Nat) :
    n ∈ ThemeHelper.oddLengths ls ↔ n ∈ ls ∧ ls.count n % 2 = 1 := by
  simp only [ThemeHelper.oddLengths, List.mem_filter, List.mem_dedup,
    decide_eq_true_eq]
  exact and_congr_right (fun _ => by omega)

/-- The odd-multiplicity length list has no duplicates. -/
theorem oddLengths_nodup (ls : List Nat) : (ThemeHelper.oddLengths ls).Nodup :=
  ls.nodup_dedup.filter _

/-- The sorted unpaired-length list is a permutation of the odd list. -/
theorem unpairedLengths_perm (ls : List Nat) :
    List.Perm (ThemeHelper.unpairedLengths ls) (ThemeHelper.oddLengths ls) :=
  List.perm_insertionSort _ _

/-- The unpaired-length list is sorted ascending. -/
theorem unpairedLengths_sorted (ls : List Nat) :
    List.Sorted (· ≤ ·) (ThemeHelper.unpairedLengths ls) :=
  List.sorted_insertionSort _ _

/-- The unpaired-length list has no duplicates. -/
theorem unpairedLengths_nodup (ls : List Nat) :
    (ThemeHelper.unpairedLengths ls).Nodup :=
  (unpairedLengths_perm ls).nodup_iff.mpr (oddLengths_nodup ls)

/-- Membership in the unpaired-length list: exactly the lengths occurring an
odd number of times. -/
theorem mem_unpairedLengths (ls : List Nat) (n : Nat) :
    n ∈ ThemeHelper.unpairedLengths ls ↔ n ∈ ls ∧ ls.count n % 2 = 1 :=
  ((unpairedLengths_perm ls).mem_iff).trans (mem_oddLengths ls n)

/-- Error strings of `suggest_wordplay` are never empty. -/
theorem errorMessage_ne_empty (e : PyError) : ThemeHelper.errorMessage e ≠ "" := by
  have h0 : ("" : String).length = 0 := rfl
  cases e with
  | urlError m =>
    intro hc
    have hl := congrArg String.length hc
    simp only [ThemeHelper.errorMessage, String.length_append] at hl
    have hp : 0 < ("Network error: Unable to fetch synonyms. " : String).length := by decide
    rw [h0] at hl
    omega
  | exc m =>
    intro hc
    have hl := congrArg String.length hc
    simp only [ThemeHelper.errorMessage, String.length_append] at hl
    have hp : 0 < ("Error fetching synonyms: " : String).length := by decide
    rw [h0] at hl
    omega

/-- Error strings of `generate_theme_entries` are never empty. -/
theorem genErrorMessage_ne_empty (e : PyError) : ThemeHelper.genErrorMessage e ≠ "" := by
  have h0 : ("" : String).length = 0 := rfl
  cases e with
  | urlError m =>
    intro hc
    have hl := congrArg String.length hc
    simp only [ThemeHelper.genErrorMessage, String.length_append] at hl
    have hp : 0 < ("Network error: Unable to generate theme entries. " : String).length := by
      decide
    rw [h0] at hl
    omega
  | exc m =>
    intro hc
    have hl := congrArg String.length hc
    simp only [ThemeHelper.genErrorMessage, String.length_append] at hl
    have hp : 0 < ("Error generating theme entries: " : String).length := by decide
    rw [h0] at hl
    omega

/-! Claim theorems. -/

/-- C3: the Length Validator accepts exactly the entries whose space-stripped
character count lies between `MIN_ENTRY_LENGTH` (8) and `MAX_ENTRY_LENGTH`
(15) inclusive; below the minimum it returns the "too short" message carrying
the measured length (and the configured range), above the maximum the
"too long" message with the same detail, and otherwise the "good length"
message. -/
theorem validate_entry_length_correct (entry : List Char) :
    ((ThemeHelper.validate_entry_length entry).1 = true ↔
      (ThemeHelper.MIN_ENTRY_LENGTH ≤ cleanedLength entry ∧
        cleanedLength entry ≤ ThemeHelper.MAX_ENTRY_LENGTH)) ∧
    (cleanedLength entry < ThemeHelper.MIN_ENTRY_LENGTH →
      ThemeHelper.validate_entry_length entry =
        (false, ThemeHelper.tooShortMessage (cleanedLength entry))) ∧
    (ThemeHelper.MAX_ENTRY_LENGTH < cleanedLength entry →
      ThemeHelper.validate_entry_length entry =
        (false, ThemeHelper.tooLongMessage (cleanedLength entry))) ∧
    (ThemeHelper.MIN_ENTRY_LENGTH ≤ cleanedLength entry ∧
        cleanedLength entry ≤ ThemeHelper.MAX_ENTRY_LENGTH →
      ThemeHelper.validate_entry_length entry =
        (true, ThemeHelper.goodLengthMessage (cleanedLength entry))) := by
  have hdef : ThemeHelper.validate_entry_length entry =
      (if cleanedLength entry < ThemeHelper.MIN_ENTRY_LENGTH then
        (false, ThemeHelper.tooShortMessage (cleanedLength entry))
      else if cleanedLength entry > ThemeHelper.MAX_ENTRY_LENGTH then
        (false, ThemeHelper.tooLongMessage (cleanedLength entry))
      else (true, ThemeHelper.goodLengthMessage (cleanedLength entry))) := rfl
  rw [hdef]
  simp only [ThemeHelper.MIN_ENTRY_LENGTH, ThemeHelper.MAX_ENTRY_LENGTH]
  split_ifs with h1 h2
  · exact ⟨by simp; omega, fun _ => rfl, fun h => absurd h (by omega),
      fun h => absurd h (by omega)⟩
  · exact ⟨by simp; omega, fun h => absurd h h1, fun _ => rfl,
      fun h => absurd h (by omega)⟩
  · exact ⟨by simp; omega, fun h => absurd h h1, fun h => absurd h h2,
      fun _ => rfl⟩

/-- Witness for C3 at the boundary lengths 8, 15, 7 and 16. -/
theorem validate_entry_length_correct_witness :
    ThemeHelper.validate_entry_length (List.replicate 8 'A') =
      (true, ThemeHelper.goodLengthMessage (cleanedLength (List.replicate 8 'A'))) ∧
    ThemeHelper.validate_entry_length (List.replicate 15 'A') =
      (true, ThemeHelper.goodLengthMessage (cleanedLength (List.replicate 15 'A'))) ∧
    ThemeHelper.validate_entry_length (List.replicate 7 'A') =
      (false, ThemeHelper.tooShortMessage (cleanedLength (List.replicate 7 'A'))) ∧
    ThemeHelper.validate_entry_length (List.replicate 16 'A') =
      (false, ThemeHelper.tooLongMessage (cleanedLength (List.replicate 16 'A'))) :=
  ⟨(validate_entry_length_correct (List.replicate 8 'A')).2.2.2 (by decide),
   (validate_entry_length_correct (List.replicate 15 'A')).2.2.2 (by decide),
   (validate_entry_length_correct (List.replicate 7 'A')).2.1 (by decide),
   (validate_entry_length_correct (List.replicate 16 'A')).2.2.1 (by decide)⟩

/-- C4: the symmetry check of `analyze_theme`: with exactly one distinct
cleaned length it emits the uniform-length suggestion and no pairing warning;
otherwise, if no length has odd multiplicity it emits the paired-lengths
suggestion, and if some do it emits a single warning listing exactly the
odd-multiplicity lengths, sorted ascending without duplicates. -/
theorem analyze_theme_symmetry_check (entries : List (List Char)) :
    ThemeHelper.themeLengths entries = entries.map cleanedLength ∧
    (ThemeHelper.analyze_theme entries).suggestions =
      (ThemeHelper.pairingItems (ThemeHelper.themeLengths entries)).2 ∧
    (ThemeHelper.analyze_theme entries).warnings =
      ThemeHelper.countWarnings entries.length
        ++ (ThemeHelper.pairingItems (ThemeHelper.themeLengths entries)).1 ∧
    ((ThemeHelper.themeLengths entries).dedup.length = 1 →
      ThemeHelper.pairingItems (ThemeHelper.themeLengths entries) =
        ([], [ThemeHelper.uniformMessage])) ∧
    ((ThemeHelper.themeLengths entries).dedup.length ≠ 1 →
      (ThemeHelper.oddLengths (ThemeHelper.themeLengths entries) = [] →
        ThemeHelper.pairingItems (ThemeHelper.themeLengths entries) =
          ([], [ThemeHelper.pairedMessage])) ∧
      (ThemeHelper.oddLengths (ThemeHelper.themeLengths entries) ≠ [] →
        ThemeHelper.pairingItems (ThemeHelper.themeLengths entries) =
          ([ThemeHelper.unpairedMessage
              (ThemeHelper.unpairedLengths (ThemeHelper.themeLengths entries))], []))) ∧
    List.Sorted (· ≤ ·) (ThemeHelper.unpairedLengths (ThemeHelper.themeLengths entries)) ∧
    (ThemeHelper.unpairedLengths (ThemeHelper.themeLengths entries)).Nodup ∧
    ∀ n : Nat, n ∈ ThemeHelper.unpairedLengths (ThemeHelper.themeLengths entries) ↔
      n ∈ ThemeHelper.themeLengths entries ∧
        (ThemeHelper.themeLengths entries).count n % 2 = 1 := by
  refine ⟨themeLengths_eq entries, rfl, rfl, ?_, ?_,
    unpairedLengths_sorted _, unpairedLengths_nodup _,
    mem_unpairedLengths (ThemeHelper.themeLengths entries)⟩
  · intro h1
    simp [ThemeHelper.pairingItems, h1]
  · intro h1
    refine ⟨fun h2 => ?_, fun h2 => ?_⟩
    · simp [ThemeHelper.pairingItems, h1, h2]
    · simp [ThemeHelper.pairingItems, h1, h2]

/-- Witness for C4: lengths 8,8,9,9,10 yield a single warning listing [10];
lengths 8,8,9,9 yield no warning and the paired-lengths suggestion. -/
theorem analyze_theme_symmetry_check_witness :
    ThemeHelper.pairingItems (ThemeHelper.themeLengths exUnpairedEntries) =
      ([ThemeHelper.unpairedMessage [10]], []) ∧
    (ThemeHelper.analyze_theme exUnpairedEntries).warnings =
      [ThemeHelper.unpairedMessage [10]] ∧
    ThemeHelper.pairingItems (ThemeHelper.themeLengths exPairedEntries) =
      ([], [ThemeHelper.pairedMessage]) ∧
    (ThemeHelper.analyze_theme exPairedEntries).warnings = [] ∧
    (ThemeHelper.analyze_theme exPairedEntries).suggestions =
      [ThemeHelper.pairedMessage] := by
  have h1 := ((analyze_theme_symmetry_check exUnpairedEntries).2.2.2.2.1
    (by decide)).2 (by decide)
  have h2 := ((analyze_theme_symmetry_check exPairedEntries).2.2.2.2.1
    (by decide)).1 (by decide)
  have hu : ThemeHelper.unpairedLengths (ThemeHelper.themeLengths exUnpairedEntries)
      = [10] := by decide
  rw [hu] at h1
  refine ⟨h1, ?_, h2, ?_, ?_⟩
  · rw [(analyze_theme_symmetry_check exUnpairedEntries).2.2.1, h1]
    rfl
  · rw [(analyze_theme_symmetry_check exPairedEntries).2.2.1, h2]
    rfl
  · rw [(analyze_theme_symmetry_check exPairedEntries).2.1, h2]

/-- C5: `analyze_theme` emits an entry-count warning exactly when the entry
count is strictly below `MIN_THEME_ENTRIES` (4) or strictly above
`MAX_THEME_ENTRIES` (5); the count check's contribution precedes the symmetry
check's in the warnings list, and consists of one of the two count
messages. -/
theorem analyze_theme_count_warning (entries : List (List Char)) :
    (ThemeHelper.analyze_theme entries).warnings =
      ThemeHelper.countWarnings entries.length
        ++ (ThemeHelper.pairingItems (ThemeHelper.themeLengths entries)).1 ∧
    (ThemeHelper.countWarnings entries.length ≠ [] ↔
      (entries.length < ThemeHelper.MIN_THEME_ENTRIES ∨
        entries.length > ThemeHelper.MAX_THEME_ENTRIES)) ∧
    (∀ w ∈ ThemeHelper.countWarnings entries.length,
      w = ThemeHelper.needMoreMessage ∨ w = ThemeHelper.tooManyMessage entries.length) := by
  refine ⟨rfl, ?_, ?_⟩
  · unfold ThemeHelper.countWarnings
    simp only [ThemeHelper.MIN_THEME_ENTRIES, ThemeHelper.MAX_THEME_ENTRIES]
    split_ifs with h1 h2
    · simp
      omega
    · simp
      omega
    · simp
      omega
  · unfold ThemeHelper.countWarnings
    split_ifs <;> simp

/-- Witness for C5: four entries produce no count warning, six produce one. -/
theorem analyze_theme_count_warning_witness :
    (ThemeHelper.countWarnings exPairedEntries.length ≠ [] ↔
      (exPairedEntries.length < ThemeHelper.MIN_THEME_ENTRIES ∨
        exPairedEntries.length > ThemeHelper.MAX_THEME_ENTRIES)) ∧
    ThemeHelper.countWarnings exPairedEntries.length = [] ∧
    ThemeHelper.countWarnings 6 = [ThemeHelper.tooManyMessage 6] :=
  ⟨(analyze_theme_count_warning exPairedEntries).2.1, by decide, by decide⟩

/-- C6: in every report, `total_length` is the sum of the entries' cleaned
lengths, the per-entry results are the input entries' results in input order,
and `entry_count` is the number of input entries. -/
theorem analyze_theme_report_invariants (entries : List (List Char)) :
    (ThemeHelper.analyze_theme entries).total_length =
      (entries.map cleanedLength).sum ∧
    ((ThemeHelper.analyze_theme entries).entries).map EntryResult.text = entries ∧
    (ThemeHelper.analyze_theme entries).entries =
      entries.map ThemeHelper.entryResultOf ∧
    (ThemeHelper.analyze_theme entries).entry_count = entries.length := by
  refine ⟨?_, ?_, rfl, rfl⟩
  · show (ThemeHelper.themeLengths entries).sum = _
    rw [themeLengths_eq]
  · show (entries.map ThemeHelper.entryResultOf).map EntryResult.text = entries
    rw [List.map_map]
    exact (List.map_congr_left (fun e _ => rfl)).trans (List.map_id entries)

/-- C7: `analyze_theme` is total (every branch of the embedding returns a
report, no fallible path exists); the empty input yields `entry_count = 0`
and the needs-more-entries warning. -/
theorem analyze_theme_total_no_failure :
    (ThemeHelper.analyze_theme []).entry_count = 0 ∧
    (ThemeHelper.analyze_theme []).warnings = [ThemeHelper.needMoreMessage] ∧
    (∀ entries, (ThemeHelper.analyze_theme entries).entry_count = entries.length) :=
  ⟨rfl, rfl, fun _ => rfl⟩

/-- C9: on the empty input the pairing branch runs (zero distinct lengths is
not exactly one), finds no odd-multiplicity length, and emits the positive
paired-lengths suggestion, so the suggestions list is non-empty. -/
theorem analyze_theme_empty_paired_suggestion :
    (ThemeHelper.analyze_theme []).suggestions = [ThemeHelper.pairedMessage] ∧
    (ThemeHelper.analyze_theme []).suggestions ≠ [] :=
  ⟨rfl, by decide⟩

/-- C8: a sibling `MiniThemeAnalyzer` (modelled from the spec, absent from
`src/`) analyses entries through the same parameterized algorithm shape as the
standard analyzer — which the shared shape reproduces exactly at the standard
profile — using its own 5×5 guideline table, distinct in every field. -/
theorem mini_theme_analyzer_sibling :
    (∀ es, MiniThemeAnalyzer.analyze_theme es = analyzeThemeWith miniProfile es) ∧
    (∀ es, analyzeThemeWith standardProfile es = ThemeHelper.analyze_theme es) ∧
    miniProfile ≠ standardProfile ∧
    miniProfile.min_entry_length ≠ standardProfile.min_entry_length ∧
    miniProfile.max_entry_length ≠ standardProfile.max_entry_length ∧
    miniProfile.min_entries ≠ standardProfile.min_entries ∧
    miniProfile.max_entries ≠ standardProfile.max_entries :=
  ⟨fun _ => rfl, fun _ => rfl, by decide, by decide, by decide, by decide, by decide⟩

/-- C1 counterexample: with an injected lookup whose synonym request succeeds
with one word and whose related-words request fails, `suggest_wordplay`
returns a result that carries an error AND a non-empty synonyms list — the
claimed mutual exclusion (error implies both lists empty) fails exactly in
the case the claim singles out. -/
theorem suggest_wordplay_error_nonempty_synonyms :
    (ThemeHelper.suggest_wordplay cexLookup ['i', 'c', 'e']).error ≠ none ∧
    ¬((ThemeHelper.suggest_wordplay cexLookup ['i', 'c', 'e']).synonyms = [] ∧
      (ThemeHelper.suggest_wordplay cexLookup ['i', 'c', 'e']).related = []) ∧
    (ThemeHelper.suggest_wordplay cexLookup ['i', 'c', 'e']).synonyms =
      [['c', 'a', 't']] := by
  refine ⟨?_, ?_, ?_⟩ <;> decide

/-- C1 (amended): whenever `suggest_wordplay` reports an error, the error
string is non-empty and the related-words list is empty; whenever the first
(synonym) lookup failed, the synonyms list is empty; and whenever the first
lookup succeeded and only the second (related-words) lookup failed, the
synonyms list retains the first lookup's parsed words.  The embedding is
total: every failure is converted into such a result, nothing escapes the
boundary. -/
theorem suggest_wordplay_failure_contract
    (lookup : Query → Except PyError (List Item)) (phrase : List Char) (msg : String)
    (h : (ThemeHelper.suggest_wordplay lookup phrase).error = some msg) :
    msg ≠ "" ∧
    (ThemeHelper.suggest_wordplay lookup phrase).related = [] ∧
    (∀ e, lookup (Query.ml (ThemeHelper.cleanPhraseOf phrase) 15) = Except.error e →
      (ThemeHelper.suggest_wordplay lookup phrase).synonyms = [] ∧
        msg = ThemeHelper.errorMessage e) ∧
    (∀ d e, lookup (Query.ml (ThemeHelper.cleanPhraseOf phrase) 15) = Except.ok d →
      lookup (Query.relTrg (ThemeHelper.cleanPhraseOf phrase) 15) = Except.error e →
      (ThemeHelper.suggest_wordplay lookup phrase).synonyms =
        nonEmptyWords (d.take 10) ∧
        msg = ThemeHelper.errorMessage e) := by
  rcases h1 : lookup (Query.ml (ThemeHelper.cleanPhraseOf phrase) 15) with e1 | d1
  · have hres : ThemeHelper.suggest_wordplay lookup phrase =
        { synonyms := [], related := [], error := some (ThemeHelper.errorMessage e1) } := by
      simp only [ThemeHelper.suggest_wordplay, h1]
    rw [hres] at h ⊢
    have hmsg : ThemeHelper.errorMessage e1 = msg := by simpa using h
    subst hmsg
    refine ⟨errorMessage_ne_empty e1, rfl, ?_, ?_⟩
    · intro e he
      injection he with he2
      subst he2
      exact ⟨rfl, rfl⟩
    · intro d e hd _
      exact Except.noConfusion hd
  · rcases h2 : lookup (Query.relTrg (ThemeHelper.cleanPhraseOf phrase) 15) with e2 | d2
    · have hres : ThemeHelper.suggest_wordplay lookup phrase =
          { synonyms := nonEmptyWords (d1.take 10), related := []
            error := some (ThemeHelper.errorMessage e2) } := by
        simp only [ThemeHelper.suggest_wordplay, h1, h2]
      rw [hres] at h ⊢
      have hmsg : ThemeHelper.errorMessage e2 = msg := by simpa using h
      subst hmsg
      refine ⟨errorMessage_ne_empty e2, rfl, ?_, ?_⟩
      · intro e he
        exact Except.noConfusion he
      · intro d e hd hrel
        injection hd with hd2
        injection hrel with hrel2
        subst hd2
        subst hrel2
        exact ⟨rfl, rfl⟩
    · have hres : ThemeHelper.suggest_wordplay lookup phrase =
          { synonyms := nonEmptyWords (d1.take 10)
            related := nonEmptyWords (d2.take 10), error := none } := by
        simp only [ThemeHelper.suggest_wordplay, h1, h2]
      rw [hres] at h
      simp at h

/-- Witness for the amended C1 at the lookup whose synonym request succeeds
and whose related-words request fails: the retention clause fires and the
synonyms list is the retained word list. -/
theorem suggest_wordplay_failure_contract_witness :
    (ThemeHelper.suggest_wordplay cexLookup ['i', 'c', 'e']).error =
      some (ThemeHelper.errorMessage (PyError.urlError ("timeout"))) ∧
    (ThemeHelper.errorMessage (PyError.urlError ("timeout")) ≠ "" ∧
      (ThemeHelper.suggest_wordplay cexLookup ['i', 'c', 'e']).related = [] ∧
      (∀ e, cexLookup (Query.ml (ThemeHelper.cleanPhraseOf ['i', 'c', 'e']) 15) =
          Except.error e →
        (ThemeHelper.suggest_wordplay cexLookup ['i', 'c', 'e']).synonyms = [] ∧
          ThemeHelper.errorMessage (PyError.urlError ("timeout")) =
            ThemeHelper.errorMessage e) ∧
      (∀ d e, cexLookup (Query.ml (ThemeHelper.cleanPhraseOf ['i', 'c', 'e']) 15) =
          Except.ok d →
        cexLookup (Query.relTrg (ThemeHelper.cleanPhraseOf ['i', 'c', 'e']) 15) =
          Except.error e →
        (ThemeHelper.suggest_wordplay cexLookup ['i', 'c', 'e']).synonyms =
          nonEmptyWords (d.take 10) ∧
          ThemeHelper.errorMessage (PyError.urlError ("timeout")) =
            ThemeHelper.errorMessage e)) ∧
    (ThemeHelper.suggest_wordplay cexLookup ['i', 'c', 'e']).synonyms =
      [['c', 'a', 't']] :=
  ⟨rfl,
   suggest_wordplay_failure_contract cexLookup ['i', 'c', 'e']
     (ThemeHelper.errorMessage (PyError.urlError ("timeout"))) rfl,
   by decide⟩

/-- The `seen`-set dedup keeps candidates with pairwise distinct lower-cased
forms, none of which was in `seen`. -/
theorem dedupCIAux_lower_nodup (l : List (List Char)) :
    ∀ seen : List (List Char),
      ((ThemeHelper.dedupCIAux seen l).map lowerStr).Nodup ∧
      ∀ s ∈ (ThemeHelper.dedupCIAux seen l).map lowerStr, s ∉ seen := by
  induction l with
  | nil =>
    intro seen
    simp [ThemeHelper.dedupCIAux]
  | cons c cs ih =>
    intro seen
    by_cases h : lowerStr c ∈ seen
    · simpa [ThemeHelper.dedupCIAux, h] using ih seen
    · have ih2 := ih (lowerStr c :: seen)
      simp only [ThemeHelper.dedupCIAux, if_neg h, List.map_cons, List.nodup_cons]
      refine ⟨⟨?_, ih2.1⟩, ?_⟩
      · intro hmem
        exact (ih2.2 _ hmem) (List.mem_cons_self _ _)
      · intro s hs
        rcases List.mem_cons.mp hs with rfl | hs2
        · exact h
        · intro hseen
          exact (ih2.2 s hs2) (List.mem_cons_of_mem _ hseen)

/-- The candidates surviving the dedup have pairwise distinct lower-cased
forms. -/
theorem dedupCI_lower_nodup (l : List (List Char)) :
    ((ThemeHelper.dedupCI l).map lowerStr).Nodup :=
  (dedupCIAux_lower_nodup l []).1

/-- The `matching_entries` loop, run on candidates with pairwise distinct
lower-cased forms none of which is already displayed, keeps in order the
candidates of target stripped length, upper-cased, until the cap: the skip
branch for repeated display forms never fires because distinct lower-cased
forms have distinct upper-cased forms. -/
theorem matchLoopAux_eq (target maxr : Nat) :
    ∀ (cs acc : List (List Char)),
      acc.length < maxr →
      (∀ c ∈ cs, upperStr c ∉ acc) →
      ((cs.map lowerStr).Nodup) →
      ThemeHelper.matchLoopAux target maxr acc cs =
        acc ++ ((cs.filter (fun c => decide ((stripSpaces c).length = target))).map
          upperStr).take (maxr - acc.length) := by
  intro cs
  induction cs with
  | nil =>
    intro acc _ _ _
    simp [ThemeHelper.matchLoopAux]
  | cons c cs ih =>
    intro acc hlen hnotin hnodup
    have hnodup2 : (cs.map lowerStr).Nodup := (List.nodup_cons.mp hnodup).2
    have hcnd : ((stripSpaces (upperStr c)).length = target) ↔
        ((stripSpaces c).length = target) := by
      rw [length_stripSpaces_upperStr]
    by_cases hc : (stripSpaces c).length = target
    · have hc2 : (stripSpaces (upperStr c)).length = target := hcnd.mpr hc
      have hmemc : upperStr c ∉ acc := hnotin c (List.mem_cons_self c cs)
      have hfil : (c :: cs).filter (fun c => decide ((stripSpaces c).length = target)) =
          c :: cs.filter (fun c => decide ((stripSpaces c).length = target)) :=
        List.filter_cons_of_pos (by simpa using hc)
      simp only [ThemeHelper.matchLoopAux, if_pos hc2, if_neg hmemc, hfil, List.map_cons]
      by_cases hb : maxr ≤ (acc ++ [upperStr c]).length
      · rw [if_pos hb]
        have hb2 : (acc ++ [upperStr c]).length = acc.length + 1 := by simp
        have h1 : maxr - acc.length = 1 := by omega
        rw [h1]
        simp
      · rw [if_neg hb]
        have hb2 : (acc ++ [upperStr c]).length = acc.length + 1 := by simp
        have hlen2 : (acc ++ [upperStr c]).length < maxr := by omega
        have hnotin2 : ∀ c2 ∈ cs, upperStr c2 ∉ acc ++ [upperStr c] := by
          intro c2 hc2mem
          simp only [List.mem_append, List.mem_singleton]
          rintro (hin | heq)
          · exact (hnotin c2 (List.mem_cons_of_mem c hc2mem)) hin
          · have hlow : lowerStr c2 = lowerStr c := by
              have := congrArg lowerStr heq
              rwa [lowerStr_upperStr, lowerStr_upperStr] at this
            have hhead : lowerStr c ∉ cs.map lowerStr := (List.nodup_cons.mp hnodup).1
            exact hhead (hlow ▸ List.mem_map_of_mem lowerStr hc2mem)
        have hrec := ih (acc ++ [upperStr c]) hlen2 hnotin2 hnodup2
        rw [hrec]
        obtain ⟨k, hk⟩ : ∃ k, maxr - acc.length = k + 1 := ⟨maxr - acc.length - 1, by omega⟩
        have hk2 : maxr - (acc ++ [upperStr c]).length = k := by omega
        rw [hk, hk2, List.take_succ_cons, List.append_assoc, List.singleton_append]
    · have hc2 : ¬((stripSpaces (upperStr c)).length = target) := fun hh => hc (hcnd.mp hh)
      have hfil : (c :: cs).filter (fun c => decide ((stripSpaces c).length = target)) =
          cs.filter (fun c => decide ((stripSpaces c).length = target)) :=
        List.filter_cons_of_neg (by simpa using hc)
      simp only [ThemeHelper.matchLoopAux, if_neg hc2, hfil]
      exact ih acc hlen (fun c2 h2 => hnotin c2 (List.mem_cons_of_mem c h2)) hnodup2

/-- With a never-failing lookup, the per-word collection succeeds with the
discovery-order candidate list. -/
theorem collectWordCandidates_ok (f : Query → List Item) :
    ∀ ws, ThemeHelper.collectWordCandidates (okLookup f) ws =
      Except.ok (pureWordCandidates f ws) := by
  intro ws
  induction ws with
  | nil => rfl
  | cons w ws ih =>
    simp [ThemeHelper.collectWordCandidates, okLookup, ih, pureWordCandidates]

/-- With a never-failing lookup, the whole collection succeeds with the
discovery-order candidate list. -/
theorem genCollect_ok (f : Query → List Item) (clean : List Char) :
    ThemeHelper.genCollect (okLookup f) clean =
      Except.ok (pureAllCandidates f clean) := by
  simp [ThemeHelper.genCollect, collectWordCandidates_ok f, okLookup, pureAllCandidates]

/-- C2: with an injected lookup returning fixed candidate lists,
theme-entry generation returns exactly the candidates of target space-stripped
length, de-duplicated case-insensitively keeping the first-seen occurrence,
upper-cased, in discovery order, capped at `max_results`; the returned list
never exceeds the cap and no error is reported. -/
theorem generate_theme_entries_pure_lookup (f : Query → List Item) (base : List Char)
    (maxr : Nat) (hmax : 0 < maxr) :
    (ThemeHelper.generate_theme_entries (okLookup f) base maxr).generated_entries =
      specGeneratedEntries (pureAllCandidates f (ThemeHelper.cleanPhraseOf base))
        ((stripSpaces (ThemeHelper.cleanPhraseOf base)).length) maxr ∧
    (ThemeHelper.generate_theme_entries (okLookup f) base maxr).generated_entries.length
      ≤ maxr ∧
    (ThemeHelper.generate_theme_entries (okLookup f) base maxr).error = none := by
  have hcol := genCollect_ok f (ThemeHelper.cleanPhraseOf base)
  have hres : ThemeHelper.generate_theme_entries (okLookup f) base maxr =
      { base_entry := upperStr base
        target_length := (stripSpaces (ThemeHelper.cleanPhraseOf base)).length
        generated_entries := ThemeHelper.matchLoopAux
          ((stripSpaces (ThemeHelper.cleanPhraseOf base)).length) maxr []
          (ThemeHelper.dedupCI (pureAllCandidates f (ThemeHelper.cleanPhraseOf base)))
        error := none } := by
    simp only [ThemeHelper.generate_theme_entries, hcol]
  rw [hres]
  have hmain := matchLoopAux_eq ((stripSpaces (ThemeHelper.cleanPhraseOf base)).length)
    maxr (ThemeHelper.dedupCI (pureAllCandidates f (ThemeHelper.cleanPhraseOf base))) []
    hmax (by simp) (dedupCI_lower_nodup _)
  refine ⟨?_, ?_, rfl⟩
  · rw [hmain]
    simp [specGeneratedEntries]
  · rw [hmain]
    simp only [List.nil_append, Nat.sub_zero]
    exact List.length_take_le _ _

/-- Witness for C2 at the concrete fixed lists of `fixedLookup` and the
default cap 10: the result keeps CAT and DOG (length 3), drops the
case-insensitive duplicate Cat, the missing and empty word fields, and the
words of other lengths. -/
theorem generate_theme_entries_pure_lookup_witness :
    0 < 10 ∧
    (ThemeHelper.generate_theme_entries (okLookup fixedLookup)
        ['i', 'c', 'e'] 10).generated_entries =
      specGeneratedEntries
        (pureAllCandidates fixedLookup (ThemeHelper.cleanPhraseOf ['i', 'c', 'e']))
        ((stripSpaces (ThemeHelper.cleanPhraseOf ['i', 'c', 'e'])).length) 10 ∧
    specGeneratedEntries
        (pureAllCandidates fixedLookup (ThemeHelper.cleanPhraseOf ['i', 'c', 'e']))
        ((stripSpaces (ThemeHelper.cleanPhraseOf ['i', 'c', 'e'])).length) 10 =
      [['C', 'A', 'T'], ['D', 'O', 'G']] :=
  ⟨by decide,
   (generate_theme_entries_pure_lookup fixedLookup ['i', 'c', 'e'] 10 (by decide)).1,
   by decide⟩

/-- C10: when any lookup of `generate_theme_entries` fails, the result still
carries the upper-cased base entry and the target length computed before the
fallible block (the space-stripped length of the trimmed, lower-cased
phrase), together with a non-empty error string and no generated entries. -/
theorem generate_theme_entries_failure_contract
    (lookup : Query → Except PyError (List Item)) (base : List Char) (maxr : Nat)
    (e : PyError)
    (h : ThemeHelper.genCollect lookup (ThemeHelper.cleanPhraseOf base) =
      Except.error e) :
    ThemeHelper.generate_theme_entries lookup base maxr =
      { base_entry := upperStr base
        target_length := (stripSpaces (lowerStr (pyStrip base))).length
        generated_entries := []
        error := some (ThemeHelper.genErrorMessage e) } ∧
    ThemeHelper.genErrorMessage e ≠ "" := by
  refine ⟨?_, genErrorMessage_ne_empty e⟩
  simp only [ThemeHelper.generate_theme_entries, h]
  rfl

/-- Witness for C10 at an always-failing lookup and the default cap. -/
theorem generate_theme_entries_failure_contract_witness :
    ThemeHelper.genCollect failLookup (ThemeHelper.cleanPhraseOf ['i', 'c', 'e']) =
      Except.error (PyError.urlError ("boom")) ∧
    (ThemeHelper.generate_theme_entries failLookup ['i', 'c', 'e'] 10 =
      { base_entry := upperStr ['i', 'c', 'e']
        target_length := (stripSpaces (lowerStr (pyStrip ['i', 'c', 'e']))).length
        generated_entries := []
        error := some (ThemeHelper.genErrorMessage (PyError.urlError ("boom"))) } ∧
      ThemeHelper.genErrorMessage (PyError.urlError ("boom")) ≠ "") :=
  ⟨rfl,
   generate_theme_entries_failure_contract failLookup ['i', 'c', 'e'] 10
     (PyError.urlError ("boom")) rfl⟩
